import Mathlib

/-
Verification of the discovery-and-refresh broker of the evohome_cc
integration (src/__init__.py), via a shallow embedding in Lean.

Modelling conventions:
* A remote device is an opaque identity plus the set of attribute names it
  exposes; `hasattr d a` tests presence of attribute `a`.
* `SENSOR_ATTRS` and `BINARY_SENSOR_ATTRS` are constants of `const.py`,
  which is not among the sources; they are passed as explicit parameters,
  so every theorem holds for any value of those constants.
* The side effects of `EvoBroker.update` are recorded as an ordered event
  trace: each `hass.async_create_task(async_load_platform(...))` call
  becomes an `Event.load` carrying the platform name, the domain and the
  discovery payload (the literal `{}` of the source becomes `[]`); the
  final `async_dispatcher_send(DOMAIN)` becomes `Event.dispatch`.
  `update` returns the broker it leaves behind together with the trace;
  the Python body contains no assignment to `self`, so the returned
  broker is the input broker.
-/

namespace EvohomeCC

/-- A gateway device: an opaque identity plus the names of the attributes
it exposes. Capability is decided by attribute presence only. -/
structure Device where
  id : String
  attrs : List String
deriving DecidableEq

/-- Python hasattr, restricted to the modelled attribute set. -/
def Device.hasattr (d : Device) (a : String) : Bool :=
  d.attrs.contains a

/-- The gateway inventory object `client.evo`. `dhw` records the
truthiness of `evohome.dhw` in the source. -/
structure Evohome where
  devices : List Device
  zones : List Device
  dhw : Bool
deriving DecidableEq

/-- The gateway client; `evo` is `None` until the gateway is synchronized. -/
structure Client where
  evo : Option Evohome
deriving DecidableEq

/-- EvoBroker state: the client plus the per-category materialization
tracker lists initialised in `EvoBroker.__init__`. -/
structure Broker where
  client : Client
  binary_sensors : List Device
  climates : List Device
  water_heater : Option Device
  sensors : List Device
deriving DecidableEq

/-- Modelled from the spec: the single well-known Notification Bus topic,
the integration domain constant of `const.py` (not among the sources).
The exact string is irrelevant to every theorem below. -/
def DOMAIN : String := "evohome_cc"

/-- One `async_load_platform(hass, platform, DOMAIN, payload, config)`
request: the platform (category) name, the domain, and the discovery
payload passed to the platform loader. -/
structure Request where
  platform : String
  domain : String
  discovered : List Device
deriving DecidableEq

/-- An observable side effect of one `update` call, in program order. -/
inductive Event where
  | load (r : Request)
  | dispatch (topic : String)
deriving DecidableEq

/-- True exactly on a materialization request for platform `p`. -/
def Event.isLoadOf (p : String) : Event → Bool
  | Event.load r => decide (r.platform = p)
  | Event.dispatch _ => false

/-- True exactly on a refresh notification publish. -/
def Event.isDispatch : Event → Bool
  | Event.load _ => false
  | Event.dispatch _ => true

/-- The shared list comprehension of `new_sensors` and
`new_binary_sensors` (src/__init__.py:64-78): the devices of the
inventory that are not yet tracked and expose at least one qualifying
attribute, in inventory order. -/
def newItems (attrsOf : List String) (tracked : List Device)
    (devices : List Device) : List Device :=
  devices.filter fun d => decide (d ∉ tracked) && attrsOf.any d.hasattr

/-- new_binary_sensors (src/__init__.py:64-70). Evaluating
`broker.client.evo.devices` with `evo = None` raises in Python, hence the
`Option` result. -/
def new_binary_sensors (BINARY_SENSOR_ATTRS : List String)
    (broker : Broker) : Option (List Device) :=
  broker.client.evo.map fun evo =>
    newItems BINARY_SENSOR_ATTRS broker.binary_sensors evo.devices

/-- new_sensors (src/__init__.py:73-78). -/
def new_sensors (SENSOR_ATTRS : List String)
    (broker : Broker) : Option (List Device) :=
  broker.client.evo.map fun evo =>
    newItems SENSOR_ATTRS broker.sensors evo.devices

/-- EvoBroker.update (src/__init__.py:167-208). Returns the broker state
left behind and the ordered trace of scheduled effects. The four
conditional platform loads appear in source order (climate, water_heater,
sensor, binary_sensor), followed by the unconditional dispatcher send. -/
def EvoBroker.update (SENSOR_ATTRS BINARY_SENSOR_ATTRS : List String)
    (self : Broker) : Broker × List Event :=
  match self.client.evo with
  | none => (self, [])
  | some evohome =>
      (self,
        (if (evohome.zones.filter fun z => decide (z ∉ self.climates)) ≠ []
          then [Event.load ⟨"climate", DOMAIN, []⟩] else []) ++
        (if evohome.dhw = true ∧ self.water_heater = none
          then [Event.load ⟨"water_heater", DOMAIN, []⟩] else []) ++
        (if newItems SENSOR_ATTRS self.sensors evohome.devices ≠ []
          then [Event.load ⟨"sensor", DOMAIN, []⟩] else []) ++
        (if newItems BINARY_SENSOR_ATTRS self.binary_sensors evohome.devices ≠ []
          then [Event.load ⟨"binary_sensor", DOMAIN, []⟩] else []) ++
        [Event.dispatch DOMAIN])

/-- The owning controller of a device (the `_ctl` back-reference). -/
structure Controller where
  id : String
deriving DecidableEq

/-- The wrapped device as seen by an entity: only the `_ctl`
back-reference matters for the attribute map. A Python object is truthy,
so `if self._evo_device._ctl` tests `ctl` against `None`. -/
structure WrappedDevice where
  ctl : Option Controller
deriving DecidableEq

/-- EvoEntity: the front-end object base, holding its wrapped device. -/
structure EvoEntity where
  evo_device : WrappedDevice
deriving DecidableEq

/-- EvoEntity.device_state_attributes (src/__init__.py:241-250): the
attribute map, as an association list from key to optional value. The
source returns a dict with the single key "controller" whose value is
`self._evo_device._ctl.id if self._evo_device._ctl else None`. -/
def EvoEntity.device_state_attributes (self : EvoEntity) :
    List (String × Option String) :=
  [("controller", self.evo_device.ctl.map Controller.id)]

/-- SCAN_INTERVAL_DEFAULT (src/__init__.py:40), in seconds. -/
def SCAN_INTERVAL_DEFAULT : Int := 300

/-- SCAN_INTERVAL_MINIMUM (src/__init__.py:41), in seconds. -/
def SCAN_INTERVAL_MINIMUM : Int := 10

/-- The scan-interval entry of CONFIG_SCHEMA (src/__init__.py:49-51):
`vol.Optional(CONF_SCAN_INTERVAL, default=SCAN_INTERVAL_DEFAULT)`
validated by `vol.All(cv.time_period, vol.Range(min=SCAN_INTERVAL_MINIMUM))`.
A missing key takes the default; `vol.Range(min=m)` accepts a value
exactly when it is at least `m` and raises `Invalid` otherwise. Durations
are modelled as integral seconds. -/
def validate_scan_interval (v : Option Int) : Except String Int :=
  let value := v.getD SCAN_INTERVAL_DEFAULT
  if SCAN_INTERVAL_MINIMUM ≤ value then Except.ok value
  else Except.error "value must be at least 10 seconds"

theorem mem_newItems {attrsOf : List String} {tracked devices : List Device}
    {d : Device} :
    d ∈ newItems attrsOf tracked devices ↔
      d ∈ devices ∧ d ∉ tracked ∧ ∃ a ∈ attrsOf, d.hasattr a = true := by
  simp [newItems, List.mem_filter, Bool.and_eq_true, decide_eq_true_eq,
    List.any_eq_true, and_assoc]

theorem newItems_sublist (attrsOf : List String) (tracked devices : List Device) :
    (newItems attrsOf tracked devices).Sublist devices := by
  unfold newItems
  exact List.filter_sublist devices

theorem newItems_eq_nil_of_tracked {attrsOf : List String}
    {tracked devices : List Device}
    (h : ∀ d ∈ devices, (∃ a ∈ attrsOf, d.hasattr a = true) → d ∈ tracked) :
    newItems attrsOf tracked devices = [] := by
  rw [List.eq_nil_iff_forall_not_mem]
  intro d hd
  rw [mem_newItems] at hd
  exact hd.2.1 (h d hd.1 hd.2.2)

theorem update_fst (SENSOR_ATTRS BINARY_SENSOR_ATTRS : List String)
    (b : Broker) :
    (EvoBroker.update SENSOR_ATTRS BINARY_SENSOR_ATTRS b).1 = b := by
  cases h : b.client.evo <;> simp [EvoBroker.update, h]

/-- Concrete fixture: a device exposing a measurement attribute. -/
def devT : Device := ⟨"01:123", ["temperature"]⟩

/-- Concrete fixture: a device exposing a binary attribute. -/
def devW : Device := ⟨"02:456", ["window_open"]⟩

/-- Concrete fixture: an inventory holding the two fixture devices. -/
def evoW : Evohome := ⟨[devT, devW], [], false⟩

/-- Concrete fixture: a broker with the fixture inventory and all tracker
lists empty. -/
def bFresh : Broker := ⟨⟨some evoW⟩, [], [], none, []⟩

/-- Concrete fixture: same inventory as bFresh, other trackers differ. -/
def bOther : Broker := ⟨⟨some evoW⟩, [], [devT], some devW, []⟩

/-- C3: when the gateway inventory is not yet available (client.evo is
None), EvoBroker.update returns immediately without raising, issues no
materialization request, mutates no tracker list, and publishes no
refresh notification: the resulting broker is the input broker and the
effect trace is empty. -/
theorem update_no_inventory (SENSOR_ATTRS BINARY_SENSOR_ATTRS : List String)
    (b : Broker) (h : b.client.evo = none) :
    EvoBroker.update SENSOR_ATTRS BINARY_SENSOR_ATTRS b = (b, []) := by
  simp [EvoBroker.update, h]

theorem update_no_inventory_witness :
    (⟨⟨none⟩, [devT], [], none, [devW]⟩ : Broker).client.evo = none ∧
      EvoBroker.update ["temperature"] ["window_open"]
          ⟨⟨none⟩, [devT], [], none, [devW]⟩ =
        (⟨⟨none⟩, [devT], [], none, [devW]⟩, []) :=
  ⟨rfl, update_no_inventory ["temperature"] ["window_open"] _ rfl⟩

/-- C5: new_sensors returns exactly the subsequence, in inventory order,
of broker.client.evo.devices whose members are absent from broker.sensors
and expose at least one attribute named in SENSOR_ATTRS;
new_binary_sensors is the analogue for broker.binary_sensors and
BINARY_SENSOR_ATTRS. Stated as: the result is a sublist of the inventory
(hence in inventory order) whose membership is characterised exactly by
the two conditions. -/
theorem new_sensors_spec (SENSOR_ATTRS BINARY_SENSOR_ATTRS : List String)
    (b : Broker) (evo : Evohome) (h : b.client.evo = some evo) :
    (∃ l, new_sensors SENSOR_ATTRS b = some l ∧ l.Sublist evo.devices ∧
      ∀ d, d ∈ l ↔ d ∈ evo.devices ∧ d ∉ b.sensors ∧
        ∃ a ∈ SENSOR_ATTRS, d.hasattr a = true) ∧
    (∃ l, new_binary_sensors BINARY_SENSOR_ATTRS b = some l ∧
      l.Sublist evo.devices ∧
      ∀ d, d ∈ l ↔ d ∈ evo.devices ∧ d ∉ b.binary_sensors ∧
        ∃ a ∈ BINARY_SENSOR_ATTRS, d.hasattr a = true) := by
  constructor
  · exact ⟨newItems SENSOR_ATTRS b.sensors evo.devices,
      by simp [new_sensors, h], newItems_sublist _ _ _,
      fun d => mem_newItems⟩
  · exact ⟨newItems BINARY_SENSOR_ATTRS b.binary_sensors evo.devices,
      by simp [new_binary_sensors, h], newItems_sublist _ _ _,
      fun d => mem_newItems⟩

theorem new_sensors_spec_witness :
    bFresh.client.evo = some evoW ∧
    ((∃ l, new_sensors ["temperature"] bFresh = some l ∧
        l.Sublist evoW.devices ∧
        ∀ d, d ∈ l ↔ d ∈ evoW.devices ∧ d ∉ bFresh.sensors ∧
          ∃ a ∈ ["temperature"], d.hasattr a = true) ∧
     (∃ l, new_binary_sensors ["window_open"] bFresh = some l ∧
        l.Sublist evoW.devices ∧
        ∀ d, d ∈ l ↔ d ∈ evoW.devices ∧ d ∉ bFresh.binary_sensors ∧
          ∃ a ∈ ["window_open"], d.hasattr a = true)) :=
  ⟨rfl, new_sensors_spec ["temperature"] ["window_open"] bFresh evoW rfl⟩

/-- C6: new_sensors and new_binary_sensors are pure queries. Their
embedding returns only the device list and no broker state, because the
Python bodies are single list comprehensions with no assignment, so they
mutate no tracker list by construction. The provable content: the result
is a function of the inventory and that category tracker alone, so two
calls with the same inventory and the same tracker contents return the
same result, whatever the other tracker lists (climates, water_heater,
and the other category list) hold. -/
theorem classifier_pure (SENSOR_ATTRS BINARY_SENSOR_ATTRS : List String)
    (b bQ : Broker) (hevo : b.client.evo = bQ.client.evo) :
    (b.sensors = bQ.sensors →
      new_sensors SENSOR_ATTRS b = new_sensors SENSOR_ATTRS bQ) ∧
    (b.binary_sensors = bQ.binary_sensors →
      new_binary_sensors BINARY_SENSOR_ATTRS b =
        new_binary_sensors BINARY_SENSOR_ATTRS bQ) := by
  constructor <;> intro h <;>
    simp [new_sensors, new_binary_sensors, hevo, h]

theorem classifier_pure_witness :
    bFresh.client.evo = bOther.client.evo ∧
    ((bFresh.sensors = bOther.sensors →
       new_sensors ["temperature"] bFresh =
         new_sensors ["temperature"] bOther) ∧
     (bFresh.binary_sensors = bOther.binary_sensors →
       new_binary_sensors ["window_open"] bFresh =
         new_binary_sensors ["window_open"] bOther)) :=
  ⟨rfl, classifier_pure ["temperature"] ["window_open"] bFresh bOther rfl⟩

theorem mem_loadIf {c : Prop} [Decidable c] {e e2 : Event}
    (h : e ∈ (if c then [e2] else [])) : e = e2 := by
  split at h <;> simp_all

theorem countP_loadIf (c : Prop) [Decidable c] (p : String) (r : Request) :
    (if c then [Event.load r] else []).countP (Event.isLoadOf p) =
      if c then (if r.platform = p then 1 else 0) else 0 := by
  split_ifs with hc hp <;>
    simp_all [Event.isLoadOf, List.countP_cons, List.countP_nil]

/-- Concrete fixture: same inventory as bFresh but every qualifying device
already tracked (devT in sensors, devW in binary_sensors). -/
def bDone : Broker := ⟨⟨some evoW⟩, [devW], [], none, [devT]⟩

/-- Concrete fixture: an inventory whose dhw is truthy, no devices. -/
def evoDHW : Evohome := ⟨[], [], true⟩

/-- Concrete fixture: a broker seeing evoDHW with no water heater yet. -/
def bDHW : Broker := ⟨⟨some evoDHW⟩, [], [], none, []⟩

/-- C1 counterexample: at a concrete broker whose inventory holds the
qualifying untracked device devT, one update call issues the sensor
materialization request (with an empty payload, not naming devT), yet
afterwards devT is still absent from the sensors tracker list: the
synchronous body of update never marks the tracker. -/
theorem update_tracker_not_marked_counterexample :
    (devT ∈ evoW.devices ∧ devT ∉ bFresh.sensors ∧
      devT.hasattr "temperature" = true ∧ bFresh.client.evo = some evoW) ∧
    (EvoBroker.update ["temperature"] ["window_open"] bFresh).2 =
      [Event.load ⟨"sensor", DOMAIN, []⟩,
       Event.load ⟨"binary_sensor", DOMAIN, []⟩,
       Event.dispatch DOMAIN] ∧
    devT ∉ ((EvoBroker.update ["temperature"] ["window_open"] bFresh).1).sensors := by
  decide

/-- C1 amended: for a device D qualifying for category C (sensor or
binary-sensor) and absent from the tracker list for C, one update call
with the inventory available issues exactly one materialization request
naming C, that request carrying the empty discovery payload rather than
naming D; update itself leaves every tracker list unchanged (the entry is
marked later, by the asynchronous platform materialization task, not
during the synchronous body of update). -/
theorem update_requests_new_category (SA BA : List String) (b : Broker)
    (evo : Evohome) (h : b.client.evo = some evo) (d : Device) :
    (d ∈ evo.devices → d ∉ b.sensors → (∃ a ∈ SA, d.hasattr a = true) →
      ((EvoBroker.update SA BA b).2.countP (Event.isLoadOf "sensor") = 1 ∧
        Event.load ⟨"sensor", DOMAIN, []⟩ ∈ (EvoBroker.update SA BA b).2)) ∧
    (d ∈ evo.devices → d ∉ b.binary_sensors → (∃ a ∈ BA, d.hasattr a = true) →
      ((EvoBroker.update SA BA b).2.countP (Event.isLoadOf "binary_sensor") = 1 ∧
        Event.load ⟨"binary_sensor", DOMAIN, []⟩ ∈
          (EvoBroker.update SA BA b).2)) ∧
    (EvoBroker.update SA BA b).1 = b := by
  refine ⟨?_, ?_, update_fst SA BA b⟩
  · intro hd hns hq
    have hne : newItems SA b.sensors evo.devices ≠ [] := by
      intro hnil
      have hmem : d ∈ newItems SA b.sensors evo.devices :=
        mem_newItems.2 ⟨hd, hns, hq⟩
      rw [hnil] at hmem
      exact absurd hmem (List.not_mem_nil d)
    simp only [EvoBroker.update, h, if_pos hne, List.countP_append,
      countP_loadIf, List.countP_cons, List.countP_nil, Event.isLoadOf,
      List.append_assoc, List.mem_append, List.mem_singleton]
    constructor
    · simp
    · simp
  · intro hd hns hq
    have hne : newItems BA b.binary_sensors evo.devices ≠ [] := by
      intro hnil
      have hmem : d ∈ newItems BA b.binary_sensors evo.devices :=
        mem_newItems.2 ⟨hd, hns, hq⟩
      rw [hnil] at hmem
      exact absurd hmem (List.not_mem_nil d)
    simp only [EvoBroker.update, h, if_pos hne, List.countP_append,
      countP_loadIf, List.countP_cons, List.countP_nil, Event.isLoadOf,
      List.append_assoc, List.mem_append, List.mem_singleton]
    constructor
    · simp
    · simp

theorem update_requests_new_category_witness :
    (bFresh.client.evo = some evoW ∧ devT ∈ evoW.devices ∧
      devT ∉ bFresh.sensors ∧ (∃ a ∈ ["temperature"], devT.hasattr a = true) ∧
      devW ∈ evoW.devices ∧ devW ∉ bFresh.binary_sensors ∧
      (∃ a ∈ ["window_open"], devW.hasattr a = true)) ∧
    (((EvoBroker.update ["temperature"] ["window_open"] bFresh).2.countP
        (Event.isLoadOf "sensor") = 1 ∧
      Event.load ⟨"sensor", DOMAIN, []⟩ ∈
        (EvoBroker.update ["temperature"] ["window_open"] bFresh).2) ∧
     ((EvoBroker.update ["temperature"] ["window_open"] bFresh).2.countP
        (Event.isLoadOf "binary_sensor") = 1 ∧
      Event.load ⟨"binary_sensor", DOMAIN, []⟩ ∈
        (EvoBroker.update ["temperature"] ["window_open"] bFresh).2) ∧
     (EvoBroker.update ["temperature"] ["window_open"] bFresh).1 = bFresh) :=
  ⟨⟨rfl, by decide, by decide, by decide, by decide, by decide, by decide⟩,
   (update_requests_new_category ["temperature"] ["window_open"] bFresh evoW
       rfl devT).1 (by decide) (by decide) (by decide),
   (update_requests_new_category ["temperature"] ["window_open"] bFresh evoW
       rfl devW).2.1 (by decide) (by decide) (by decide),
   (update_requests_new_category ["temperature"] ["window_open"] bFresh evoW
       rfl devT).2.2⟩

/-- C2: a second update call with unchanged inventory and the tracker
lists already containing every qualifying device (all zones tracked, a
water heater already materialized whenever dhw is truthy, every
qualifying sensor and binary-sensor device tracked) issues zero
materialization requests, the whole trace being the single refresh
notification, while both calls publish the refresh notification. -/
theorem update_idempotent (SA BA : List String) (b : Broker) (evo : Evohome)
    (h : b.client.evo = some evo)
    (hz : ∀ z ∈ evo.zones, z ∈ b.climates)
    (hw : evo.dhw = true → b.water_heater ≠ none)
    (hs : ∀ d ∈ evo.devices, (∃ a ∈ SA, d.hasattr a = true) → d ∈ b.sensors)
    (hb : ∀ d ∈ evo.devices, (∃ a ∈ BA, d.hasattr a = true) →
      d ∈ b.binary_sensors) :
    (EvoBroker.update SA BA (EvoBroker.update SA BA b).1).2 =
      [Event.dispatch DOMAIN] ∧
    Event.dispatch DOMAIN ∈ (EvoBroker.update SA BA b).2 := by
  rw [update_fst]
  have hzn : (evo.zones.filter fun z => decide (z ∉ b.climates)) = [] := by
    rw [List.filter_eq_nil_iff]
    intro z hzin
    simp [hz z hzin]
  have hwn : ¬(evo.dhw = true ∧ b.water_heater = none) := by
    rintro ⟨h1, h2⟩
    exact hw h1 h2
  constructor
  · have c1 : ¬((evo.zones.filter fun z => decide (z ∉ b.climates)) ≠ []) :=
      not_not_intro hzn
    have c3 : ¬(newItems SA b.sensors evo.devices ≠ []) :=
      not_not_intro (newItems_eq_nil_of_tracked hs)
    have c4 : ¬(newItems BA b.binary_sensors evo.devices ≠ []) :=
      not_not_intro (newItems_eq_nil_of_tracked hb)
    simp only [EvoBroker.update, h, if_neg c1, if_neg hwn, if_neg c3,
      if_neg c4, List.nil_append]
  · simp [EvoBroker.update, h]

theorem update_idempotent_witness :
    ((∀ z ∈ evoW.zones, z ∈ bDone.climates) ∧
     (evoW.dhw = true → bDone.water_heater ≠ none) ∧
     (∀ d ∈ evoW.devices,
       (∃ a ∈ ["temperature"], d.hasattr a = true) → d ∈ bDone.sensors) ∧
     (∀ d ∈ evoW.devices,
       (∃ a ∈ ["window_open"], d.hasattr a = true) →
         d ∈ bDone.binary_sensors)) ∧
    ((EvoBroker.update ["temperature"] ["window_open"]
        (EvoBroker.update ["temperature"] ["window_open"] bDone).1).2 =
      [Event.dispatch DOMAIN] ∧
     Event.dispatch DOMAIN ∈
       (EvoBroker.update ["temperature"] ["window_open"] bDone).2) :=
  ⟨⟨by decide, by decide, by decide, by decide⟩,
   update_idempotent ["temperature"] ["window_open"] bDone evoW rfl
     (by decide) (by decide) (by decide) (by decide)⟩

/-- C4: for every update call with the inventory available, exactly one
refresh notification is published on the domain topic, and it is the
last event of the trace, hence after all materialization requests of
that call, whether or not any new device was discovered. -/
theorem update_publishes_once (SA BA : List String) (b : Broker)
    (evo : Evohome) (h : b.client.evo = some evo) :
    (EvoBroker.update SA BA b).2.countP Event.isDispatch = 1 ∧
    (EvoBroker.update SA BA b).2.getLast? = some (Event.dispatch DOMAIN) := by
  simp only [EvoBroker.update, h]
  split_ifs <;> decide

theorem update_publishes_once_witness :
    bDone.client.evo = some evoW ∧
    ((EvoBroker.update ["temperature"] ["window_open"] bDone).2.countP
        Event.isDispatch = 1 ∧
     (EvoBroker.update ["temperature"] ["window_open"] bDone).2.getLast? =
        some (Event.dispatch DOMAIN)) :=
  ⟨rfl, update_publishes_once ["temperature"] ["window_open"] bDone evoW rfl⟩

/-- C9: update issues a water-heater materialization request exactly when
the inventory is available with truthy dhw and the water_heater slot is
still None; in particular once water_heater holds a value no further
water-heater request is ever issued. -/
theorem water_heater_request (SA BA : List String) (b : Broker) :
    ((EvoBroker.update SA BA b).2.countP (Event.isLoadOf "water_heater") = 1 ↔
      ∃ evo, b.client.evo = some evo ∧ evo.dhw = true ∧
        b.water_heater = none) ∧
    (b.water_heater ≠ none →
      (EvoBroker.update SA BA b).2.countP (Event.isLoadOf "water_heater") = 0) := by
  cases h : b.client.evo with
  | none =>
      simp [EvoBroker.update, h]
  | some evo =>
      simp only [EvoBroker.update, h, Option.some.injEq, List.countP_append,
        countP_loadIf, List.countP_cons, List.countP_nil, Event.isLoadOf]
      simp
      tauto

theorem water_heater_request_witness :
    ((EvoBroker.update [] [] bDHW).2.countP (Event.isLoadOf "water_heater") = 1 ↔
      ∃ evo, bDHW.client.evo = some evo ∧ evo.dhw = true ∧
        bDHW.water_heater = none) ∧
    (bDHW.water_heater ≠ none →
      (EvoBroker.update [] [] bDHW).2.countP (Event.isLoadOf "water_heater") = 0) :=
  water_heater_request [] [] bDHW

/-- C10: every materialization request issued by update carries the empty
discovery payload (the literal empty dict of the source) and the domain:
the request names only the category, never which devices were newly
discovered. -/
theorem load_requests_empty_payload (SA BA : List String) (b : Broker)
    (r : Request) (h : Event.load r ∈ (EvoBroker.update SA BA b).2) :
    r.discovered = [] ∧ r.domain = DOMAIN := by
  cases hc : b.client.evo with
  | none => simp [EvoBroker.update, hc] at h
  | some evo =>
      simp only [EvoBroker.update, hc, List.append_assoc, List.mem_append,
        List.mem_singleton] at h
      rcases h with h | h | h | h | h
      all_goals first
        | (injection mem_loadIf h with hr; subst hr; exact ⟨rfl, rfl⟩)
        | (exact Event.noConfusion h)

theorem load_requests_empty_payload_witness :
    Event.load ⟨"sensor", DOMAIN, []⟩ ∈
      (EvoBroker.update ["temperature"] ["window_open"] bFresh).2 ∧
    ((⟨"sensor", DOMAIN, []⟩ : Request).discovered = [] ∧
     (⟨"sensor", DOMAIN, []⟩ : Request).domain = DOMAIN) :=
  ⟨by decide,
   load_requests_empty_payload ["temperature"] ["window_open"] bFresh
     ⟨"sensor", DOMAIN, []⟩ (by decide)⟩

/-- C7 counterexample: at a concrete entity whose wrapped device has no
owning controller, the attribute map still contains the controller entry,
mapped to the null value: the entry is present, not absent. -/
theorem controller_entry_present_counterexample :
    (⟨⟨none⟩⟩ : EvoEntity).evo_device.ctl = none ∧
    (EvoEntity.device_state_attributes ⟨⟨none⟩⟩).lookup "controller" =
      some none := by
  decide

/-- C7 amended: the attribute map of the front-end object base always
contains the controller entry; its value is the identity of the owning
controller of the wrapped device when one exists, and the null value
when the device has no owning controller (the entry is present with a
null value, not absent). -/
theorem device_state_attributes_controller (e : EvoEntity) :
    (EvoEntity.device_state_attributes e).lookup "controller" =
      some (e.evo_device.ctl.map Controller.id) :=
  rfl

theorem device_state_attributes_controller_witness :
    (EvoEntity.device_state_attributes ⟨⟨some ⟨"01:145038"⟩⟩⟩).lookup
        "controller" =
      some ((⟨⟨some ⟨"01:145038"⟩⟩⟩ : EvoEntity).evo_device.ctl.map
        Controller.id) :=
  device_state_attributes_controller ⟨⟨some ⟨"01:145038"⟩⟩⟩

/-- C8: the scan-interval entry of CONFIG_SCHEMA supplies the default of
300 seconds when the key is missing and accepts a supplied interval
exactly when it is at least the minimum floor of 10 seconds, returning
that interval. -/
theorem scan_interval_validation (s : Int) :
    validate_scan_interval none = Except.ok SCAN_INTERVAL_DEFAULT ∧
    SCAN_INTERVAL_DEFAULT = 300 ∧ SCAN_INTERVAL_MINIMUM = 10 ∧
    (validate_scan_interval (some s) = Except.ok s ↔
      SCAN_INTERVAL_MINIMUM ≤ s) ∧
    ((∃ r, validate_scan_interval (some s) = Except.ok r) ↔
      SCAN_INTERVAL_MINIMUM ≤ s) := by
  refine ⟨rfl, rfl, rfl, ?_, ?_⟩
  · simp only [validate_scan_interval, Option.getD_some]
    split_ifs with hle <;> simp [hle]
  · simp only [validate_scan_interval, Option.getD_some]
    split_ifs with hle <;> simp [hle]

theorem scan_interval_validation_witness :
    validate_scan_interval none = Except.ok SCAN_INTERVAL_DEFAULT ∧
    SCAN_INTERVAL_DEFAULT = 300 ∧ SCAN_INTERVAL_MINIMUM = 10 ∧
    (validate_scan_interval (some 10) = Except.ok 10 ↔
      SCAN_INTERVAL_MINIMUM ≤ 10) ∧
    ((∃ r, validate_scan_interval (some 10) = Except.ok r) ↔
      SCAN_INTERVAL_MINIMUM ≤ (10 : Int)) :=
  scan_interval_validation 10

end EvohomeCC
